import Mathlib

/-!
Shallow embedding of the wind-installation report pipeline.

Two Python source files are modelled:

* `main.py` — `load_and_clean_data`, `generate_statistical_summary`,
  `create_map`, `perform_analysis`, `generate_report`, `main`.
* `script.py` — a literal eight-row table and `analyze_wind_data`.

Modelling conventions:

* Python floats are modelled as exact rationals `ℚ`; the IEEE value `NaN`
  (pandas' missing marker, produced by `pd.to_numeric(..., errors='coerce')`
  and by missing CSV cells) is modelled as `Option.none`.
* A pandas `Series` of floats is a `List (Option ℚ)`; `Series.sum` skips
  `NaN` (an all-missing series sums to `0.0`), `Series.mean` skips `NaN`
  and is itself `NaN` when no value remains.
* String columns read by `pd.read_csv` (`State`, `Facility`) can also hold
  `NaN` (an empty cell), modelled as `Option String`; `nunique`,
  `value_counts()` and `groupby` all drop those entries (their default
  `dropna=True`), while the capacity sum and mean of the whole frame still
  include such rows.
* Python exceptions (`KeyError`, `ValueError`) abort the run; fallible
  stages therefore return `Except`.  That includes the folium map: both
  `folium.Map` and `folium.CircleMarker` run `validate_location`, which
  raises `ValueError` when a coordinate is `NaN`, so map rendering aborts
  on the first row with a missing coordinate (and on a `NaN` centre).
* Rendering (matplotlib panels) and `Series.describe` are pure
  presentation with no data content referenced by any claim and are not
  modelled; the folium map is modelled by the data it receives (its centre
  and the list of markers added in `create_map`) together with its
  location-validation error path.
-/

namespace ProjectReport

/-- Characters of a string after stripping leading and trailing whitespace,
mirroring the stripping performed by Python's `float` constructor. -/
def trimChars (cs : List Char) : List Char :=
  ((cs.dropWhile Char.isWhitespace).reverse.dropWhile Char.isWhitespace).reverse

/-- Numeric value of a list of decimal digit characters. -/
def natOfDigits (ds : List Char) : ℕ :=
  ds.foldl (fun a c => 10 * a + (c.toNat - 48)) 0

/-- Exponent suffix of a Python float literal: an optional sign followed by at
least one digit and nothing else. -/
def parseExp (cs : List Char) : Option ℤ :=
  let p : ℤ × List Char :=
    match cs with
    | '-' :: r => (-1, r)
    | '+' :: r => (1, r)
    | _ => (1, cs)
  let ds := p.2.takeWhile Char.isDigit
  let rest := p.2.dropWhile Char.isDigit
  if ds.isEmpty then none
  else if rest.isEmpty then some (p.1 * natOfDigits ds)
  else none

/-- Mantissa of a Python float literal: digits, an optional decimal point and
fractional digits, with at least one digit overall.  Returns the value and the
unconsumed characters. -/
def parseMantissa (cs : List Char) : Option (ℚ × List Char) :=
  let ip := cs.takeWhile Char.isDigit
  let cs1 := cs.dropWhile Char.isDigit
  match cs1 with
  | '.' :: r =>
    let fp := r.takeWhile Char.isDigit
    let cs2 := r.dropWhile Char.isDigit
    if ip.isEmpty && fp.isEmpty then none
    else some ((natOfDigits ip : ℚ) + (natOfDigits fp : ℚ) / 10 ^ fp.length, cs2)
  | _ => if ip.isEmpty then none else some ((natOfDigits ip : ℚ), cs1)

/-- Python's `float(s)` as used by `DataFrame.astype(float)` and (on single
cells) by `pd.to_numeric`.  Result `none` means the conversion raises
(`ValueError`); `some none` means it yields a non-finite float (`nan`, `inf`),
which downstream pandas code treats as the missing marker; `some (some q)`
is a finite value. -/
def pyFloatChars (cs0 : List Char) : Option (Option ℚ) :=
  let cs := trimChars cs0
  let p : ℚ × List Char :=
    match cs with
    | '-' :: r => (-1, r)
    | '+' :: r => (1, r)
    | _ => (1, cs)
  let low := p.2.map Char.toLower
  if low = ['n', 'a', 'n'] || low = ['i', 'n', 'f'] ||
      low = ['i', 'n', 'f', 'i', 'n', 'i', 't', 'y'] then
    some none
  else
    match parseMantissa p.2 with
    | none => none
    | some m =>
      match m.2 with
      | [] => some (some (p.1 * m.1))
      | e :: r2 =>
        if e.toLower = 'e' then
          match parseExp r2 with
          | none => none
          | some k => some (some (p.1 * m.1 * (10 : ℚ) ^ k))
        else none

/-- `float` conversion on a Python string. -/
def pyFloat (s : String) : Option (Option ℚ) := pyFloatChars s.toList

/-- Split a character list on a separator character; mirrors Python's
`str.split(sep)` (never returns an empty list; an empty input gives one
empty field). -/
def splitChars (sep : Char) : List Char → List (List Char)
  | [] => [[]]
  | c :: cs =>
    let r := splitChars sep cs
    if c = sep then [] :: r
    else
      match r with
      | [] => [[c]]
      | h :: t => (c :: h) :: t

/-- Python's `s.split(sep)` for a one-character separator, as performed
row-wise by `Series.str.split(',')`. -/
def pySplit (s : String) (sep : Char) : List String :=
  (splitChars sep s.toList).map String.mk

/-- `pd.to_numeric(cell, errors='coerce')` on one cell: a missing cell stays
missing, an unparseable string (such as `"N/A"`) is coerced to the missing
marker rather than raising, a parseable string becomes its value. -/
def toNumericCoerce (cell : Option String) : Option ℚ :=
  match cell with
  | none => none
  | some s => (pyFloat s).getD none

/-- One raw CSV row of `main.py` before cleaning.  `facility`, `state`,
`coordinates` and `installedCapacity` are raw cells (`none` models a cell
read as `NaN`, e.g. an empty CSV field); `numberOfUnits` is read by
`pd.read_csv` as a numeric column. -/
structure RawRecord where
  turbineId : String
  projectName : String
  facility : Option String
  state : Option String
  coordinates : Option String
  installedCapacity : Option String
  numberOfUnits : Option ℚ

/-- The table handed to `load_and_clean_data`; `hasCoordinatesColumn` records
whether the `Coordinates` column is present (its absence makes
`df['Coordinates']` raise `KeyError`). -/
structure RawTable where
  hasCoordinatesColumn : Bool
  rows : List RawRecord

/-- A cleaned record: coordinates split and converted to float, capacity
coerced to numeric.  `none` in a numeric field is pandas' `NaN`; the
cleaning stage never touches `facility` or `state`, so a `NaN` read from
the CSV survives into the cleaned frame (modelled as `none`). -/
structure Record where
  turbineId : String
  projectName : String
  facility : Option String
  state : Option String
  latitude : Option ℚ
  longitude : Option ℚ
  installedCapacity : Option ℚ
  numberOfUnits : Option ℚ

/-- The ways the pipeline aborts: `KeyError` on the missing coordinate
column, `ValueError` from `astype(float)`, `ValueError` from assigning an
expanded frame whose column count is not two, `ValueError` from folium's
`validate_location` on a `NaN` coordinate, and `ValueError` raised by
`scipy.stats.pearsonr` on series shorter than two. -/
inductive RunError where
  | missingColumn
  | parseFailure
  | shapeMismatch
  | invalidLocation
  | corrLength
deriving DecidableEq

/-- The comma-split field list of one row, `none` when the coordinate cell is
missing (`NaN` rows stay `NaN` under `Series.str.split`). -/
def splitParts (r : RawRecord) : Option (List String) :=
  r.coordinates.map (fun s => pySplit s ',')

/-- Column count of the frame produced by `str.split(',', expand=True)`: the
maximum number of split fields over the rows whose cell is present (at least
one column). -/
def maxSplitLen (t : RawTable) : ℕ :=
  t.rows.foldl
    (fun m r =>
      match splitParts r with
      | some p => max m p.length
      | none => m)
    1

/-- Whether every present split field of a row survives `astype(float)`
without raising. -/
def rowParseOk (r : RawRecord) : Bool :=
  match splitParts r with
  | none => true
  | some p => p.all (fun s => (pyFloat s).isSome)

/-- Entry `i` of the expanded row after `astype(float)`: missing cell or
padding (a row with fewer fields than the expanded frame has columns) gives
`NaN`; a present field gives its converted value. -/
def coordEntry (r : RawRecord) (i : ℕ) : Option ℚ :=
  match splitParts r with
  | none => none
  | some p =>
    match p.get? i with
    | none => none
    | some s => (pyFloat s).getD none

/-- Cleaning of one row once the table-level `astype` and assignment have
succeeded: latitude and longitude from the first two split entries, capacity
through `pd.to_numeric(..., errors='coerce')`. -/
def cleanRow (r : RawRecord) : Record :=
  { turbineId := r.turbineId
    projectName := r.projectName
    facility := r.facility
    state := r.state
    latitude := coordEntry r 0
    longitude := coordEntry r 1
    installedCapacity := toNumericCoerce r.installedCapacity
    numberOfUnits := r.numberOfUnits }

/-- `load_and_clean_data` of `main.py` (after `pd.read_csv` has produced the
raw table): raises `KeyError` when the coordinate column is absent, then
`astype(float)` raises on any unparseable split field, then the assignment
`df[['Latitude', 'Longitude']] = ...` raises unless the expanded frame has
exactly two columns; otherwise every row is cleaned. -/
def load_and_clean_data (t : RawTable) : Except RunError (List Record) :=
  if t.hasCoordinatesColumn = false then .error .missingColumn
  else if (t.rows.all rowParseOk) = false then .error .parseFailure
  else if maxSplitLen t ≠ 2 then .error .shapeMismatch
  else .ok (t.rows.map cleanRow)

/-- Pandas `Series.sum` with the default `skipna=True`: missing values are
skipped and an all-missing series sums to zero. -/
def seriesSum (xs : List (Option ℚ)) : ℚ :=
  (xs.filterMap id).sum

/-- Pandas `Series.mean` with the default `skipna=True`: the mean of the
present values, `NaN` when none are present. -/
def seriesMean (xs : List (Option ℚ)) : Option ℚ :=
  let p := xs.filterMap id
  if p.length = 0 then none else some (p.sum / p.length)

/-- Distinct values of a list in order of first appearance, skipping those in
`seen`; the backbone of `Series.nunique`, `Series.value_counts` and the
groupby keys. -/
def firstDedup (seen : List String) : List String → List String
  | [] => []
  | x :: xs => if x ∈ seen then firstDedup seen xs else x :: firstDedup (x :: seen) xs

/-- `Series.nunique` on a string column: counts distinct present values,
skipping `NaN` (its default `dropna=True`). -/
def nunique (xs : List (Option String)) : ℕ := (firstDedup [] (xs.filterMap id)).length

/-- Number of occurrences of the present value `k` in the column `xs`. -/
def countValue (xs : List (Option String)) (k : String) : ℕ :=
  (xs.filter (fun x => x = some k)).length

/-- `Series.value_counts()`: one `(value, count)` entry per distinct present
value, sorted by descending count; `NaN` entries are dropped (the default
`dropna=True`). -/
def valueCounts (xs : List (Option String)) : List (String × ℕ) :=
  ((firstDedup [] (xs.filterMap id)).map (fun k => (k, countValue xs k))).insertionSort
    (fun p q => q.2 ≤ p.2)

/-- The `stats_summary` dictionary built by `generate_statistical_summary`
(`capacity_stats`, pandas `describe`, is presentation-only and carries no
datum referenced elsewhere; it is not modelled). -/
structure StatsSummary where
  total_projects : ℕ
  total_states : ℕ
  total_capacity : ℚ
  avg_capacity : Option ℚ
  state_counts : List (String × ℕ)
  facility_counts : List (String × ℕ)

/-- The `Installed_Capacity` column of a cleaned table. -/
def capacities (df : List Record) : List (Option ℚ) :=
  df.map (fun r => r.installedCapacity)

/-- `generate_statistical_summary` of `main.py`. -/
def generate_statistical_summary (df : List Record) : StatsSummary :=
  { total_projects := df.length
    total_states := nunique (df.map (fun r => r.state))
    total_capacity := seriesSum (capacities df)
    avg_capacity := seriesMean (capacities df)
    state_counts := valueCounts (df.map (fun r => r.state))
    facility_counts := valueCounts (df.map (fun r => r.facility)) }

/-- Byte-wise (code-point) comparison of strings, the order Python uses when
pandas sorts string group keys. -/
def charListLe : List Char → List Char → Bool
  | [], _ => true
  | _ :: _, [] => false
  | a :: as, b :: bs =>
    if a.toNat < b.toNat then true
    else if b.toNat < a.toNat then false
    else charListLe as bs

/-- String comparison on code points. -/
def strLe (a b : String) : Bool := charListLe a.toList b.toList

/-- The distinct group keys of a `groupby` with the defaults `sort=True`
and `dropna=True`: the distinct present labels in ascending key order; rows
whose label is `NaN` belong to no group. -/
def groupKeys (xs : List (Option String)) : List String :=
  (firstDedup [] (xs.filterMap id)).insertionSort (fun a b => strLe a b = true)

/-- One row of `groupby(key)['Installed_Capacity'].agg(['sum', 'mean',
'count'])`: pandas `count` counts the non-missing capacity values of the
group, not the group size. -/
structure GroupAgg where
  key : String
  sum : ℚ
  mean : Option ℚ
  count : ℕ

/-- `groupby(f)['Installed_Capacity'].agg(['sum', 'mean', 'count'])` over any
row type, given the grouping label (possibly `NaN`) and the capacity of a
row; rows with a `NaN` label are dropped from every group. -/
def groupAggGen {α : Type} (f : α → Option String) (cap : α → Option ℚ)
    (df : List α) : List GroupAgg :=
  (groupKeys (df.map f)).map (fun k =>
    let caps := (df.filter (fun r => f r = some k)).map cap
    { key := k
      sum := seriesSum caps
      mean := seriesMean caps
      count := (caps.filterMap id).length })

/-- The `capacity_by_state` aggregation of `perform_analysis`. -/
def capacityByState (df : List Record) : List GroupAgg :=
  groupAggGen (fun r => r.state) (fun r => r.installedCapacity) df

/-- The `capacity_by_facility` aggregation of `perform_analysis`. -/
def capacityByFacility (df : List Record) : List GroupAgg :=
  groupAggGen (fun r => r.facility) (fun r => r.installedCapacity) df

/-- Mean of a list of rationals (defined series mean). -/
def listMean (l : List ℚ) : ℚ := l.sum / l.length

/-- Sum of products of deviations from the respective means; with `l2 = l`
this is the (unnormalised) variance, otherwise the covariance. -/
def devSum (l : List ℚ) (m : ℚ) (l2 : List ℚ) (m2 : ℚ) : ℚ :=
  ((l.zip l2).map (fun p => (p.1 - m) * (p.2 - m2))).sum

/-- Whether every entry equals the first one, `scipy`'s constant-input test. -/
def isConstant (l : List ℚ) : Bool :=
  l.all (fun v => v = l.headI)

/-- The sufficient statistics of a defined Pearson coefficient.  The
coefficient itself is `cov / Real.sqrt (varX * varY)`, an irrational number in
general; the claims only inspect whether the statistic is defined, so the
embedding carries the exact rational statistics instead of the quotient. -/
structure CorrStats where
  cov : ℚ
  varX : ℚ
  varY : ℚ

/-- `scipy.stats.pearsonr(x, y)[0]` on two equal-length series.
`Except.error` models the `ValueError` raised when the series are shorter
than two; `Option.none` models a `NaN` result, produced either when a `NaN`
is present in the inputs (the arithmetic propagates it) or when an input
series is constant (`ConstantInputWarning`, result `NaN`). -/
def pearsonr (xs ys : List (Option ℚ)) : Except Unit (Option CorrStats) :=
  if xs.length < 2 then .error ()
  else if xs.any (fun v => v.isNone) || ys.any (fun v => v.isNone) then .ok none
  else
    let x := xs.filterMap id
    let y := ys.filterMap id
    if isConstant x || isConstant y then .ok none
    else
      .ok (some
        { cov := devSum x (listMean x) y (listMean y)
          varX := devSum x (listMean x) x (listMean x)
          varY := devSum y (listMean y) y (listMean y) })

/-- The `analysis_results` dictionary of `perform_analysis`. -/
structure AnalysisResults where
  capacity_by_state : List GroupAgg
  capacity_by_facility : List GroupAgg
  capacity_units_correlation : Option CorrStats

/-- `perform_analysis` of `main.py`: the two group aggregations and
`pearsonr(df['Number_of_Units'], df['Installed_Capacity'])[0]`; the whole
call raises when `pearsonr` does. -/
def perform_analysis (df : List Record) : Except Unit AnalysisResults :=
  match pearsonr (df.map (fun r => r.numberOfUnits)) (capacities df) with
  | .error e => .error e
  | .ok c =>
    .ok
      { capacity_by_state := capacityByState df
        capacity_by_facility := capacityByFacility df
        capacity_units_correlation := c }

/-- One `folium.CircleMarker` added by `create_map`: its location pair and
the row data interpolated into its popup (a `NaN` facility is interpolated
as the string `nan`; the absent value is carried as `none`). -/
structure MapMarker where
  markerLocation : Option ℚ × Option ℚ
  popupProject : String
  popupFacility : Option String
  popupCapacity : Option ℚ

/-- The folium map built by `create_map`: its centre and its markers. -/
structure MapViz where
  center : Option ℚ × Option ℚ
  markers : List MapMarker

/-- The `folium.CircleMarker` built from one row by `create_map`. -/
def markerOf (r : Record) : MapMarker :=
  { markerLocation := (r.latitude, r.longitude)
    popupProject := r.projectName
    popupFacility := r.facility
    popupCapacity := r.installedCapacity }

/-- The `df.iterrows()` loop of `create_map`: one `folium.CircleMarker` per
row, with no filtering — but `CircleMarker`'s `validate_location` raises
`ValueError` on a `NaN` coordinate, aborting at the first such row. -/
def addMarkers : List Record → Except RunError (List MapMarker)
  | [] => .ok []
  | r :: rs =>
    if r.latitude.isNone || r.longitude.isNone then .error .invalidLocation
    else
      match addMarkers rs with
      | .error e => .error e
      | .ok ms => .ok (markerOf r :: ms)

/-- `create_map` of `main.py`: `folium.Map` is centred at the column means
of latitude and longitude (its `validate_location` raises when a whole
coordinate column is missing and the mean is `NaN`), then `df.iterrows()`
adds one marker per row; a row with a missing coordinate makes
`CircleMarker` raise, aborting the map rendering. -/
def create_map (df : List Record) : Except RunError MapViz :=
  if (seriesMean (df.map fun r => r.latitude)).isNone
      || (seriesMean (df.map fun r => r.longitude)).isNone then
    .error .invalidLocation
  else
    match addMarkers df with
    | .error e => .error e
    | .ok ms =>
      .ok { center := (seriesMean (df.map fun r => r.latitude),
                       seriesMean (df.map fun r => r.longitude))
            markers := ms }

/-- The data content of the text report assembled by `generate_report`: the
interpolated overview numbers, the three `head(3)` top lists and the
correlation value.  Numbers are interpolated with `:.2f`, which renders the
missing marker as the string `nan`. -/
structure Report where
  total_projects : ℕ
  total_states : ℕ
  total_capacity : ℚ
  top_states_by_count : List (String × ℕ)
  top_facilities_by_count : List (String × ℕ)
  avg_capacity : Option ℚ
  capacity_units_correlation : Option CorrStats
  top_states_by_capacity : List (String × ℚ)

/-- `generate_report` of `main.py`: `value_counts().head(3)` for states and
facilities, and `capacity_by_state['sum'].sort_values(ascending=False)
.head(3)` for the capacity list. -/
def generate_report (s : StatsSummary) (a : AnalysisResults) : Report :=
  { total_projects := s.total_projects
    total_states := s.total_states
    total_capacity := s.total_capacity
    top_states_by_count := s.state_counts.take 3
    top_facilities_by_count := s.facility_counts.take 3
    avg_capacity := s.avg_capacity
    capacity_units_correlation := a.capacity_units_correlation
    top_states_by_capacity :=
      ((a.capacity_by_state.map (fun g => (g.key, g.sum))).insertionSort
        (fun p q => q.2 ≤ p.2)).take 3 }

/-- `main` of `main.py`: clean, summarise, render the map, analyse and
report in order; any stage that raises aborts the run and nothing is
returned. -/
def main (t : RawTable) :
    Except RunError (List Record × StatsSummary × MapViz × AnalysisResults × Report) :=
  match load_and_clean_data t with
  | .error e => .error e
  | .ok df =>
    match create_map df with
    | .error e => .error e
    | .ok m =>
      match perform_analysis df with
      | .error _ => .error .corrLength
      | .ok a =>
        .ok (df, generate_statistical_summary df, m, a,
          generate_report (generate_statistical_summary df) a)

/-- One row of the literal in-memory table of `script.py`; every field is
present (no missing values occur in the literal data). -/
structure ScriptRecord where
  turbineId : String
  projectName : String
  facility : String
  state : String
  installedCapacity : ℚ
  numberOfUnits : ℕ

/-- The literal `data` dictionary of `script.py`, row by row. -/
def scriptData : List ScriptRecord :=
  [ { turbineId := "T001", projectName := "Project_1", facility := "Community Center",
      state := "OK", installedCapacity := 1.733693, numberOfUnits := 1 },
    { turbineId := "T002", projectName := "Project_2", facility := "Technical College",
      state := "NY", installedCapacity := 1.374243, numberOfUnits := 4 },
    { turbineId := "T003", projectName := "Project_3", facility := "K-12 School",
      state := "KS", installedCapacity := 1.174680, numberOfUnits := 4 },
    { turbineId := "T004", projectName := "Project_4", facility := "Community Center",
      state := "IA", installedCapacity := 1.426943, numberOfUnits := 2 },
    { turbineId := "T005", projectName := "Project_5", facility := "Community Center",
      state := "OK", installedCapacity := 1.522472, numberOfUnits := 4 },
    { turbineId := "T006", projectName := "Project_6", facility := "Technical College",
      state := "IA", installedCapacity := 0.294048, numberOfUnits := 4 },
    { turbineId := "T007", projectName := "Project_7", facility := "K-12 School",
      state := "TX", installedCapacity := 0.987171, numberOfUnits := 2 },
    { turbineId := "T008", projectName := "Project_8", facility := "K-12 School",
      state := "KS", installedCapacity := 0.681184, numberOfUnits := 3 } ]

/-- The `summary` dictionary returned by `analyze_wind_data`. -/
structure ScriptSummary where
  totalProjects : ℕ
  statesCount : ℕ
  totalCapacity : ℚ
  averageCapacity : Option ℚ
  stateDistribution : List GroupAgg
  facilityDistribution : List GroupAgg

/-- `analyze_wind_data` of `script.py` (its plotting half draws panels and
saves a figure; the returned summary is the data content).  The literal
table's string columns have no missing entries, so its rows enter the
shared column machinery wrapped as present values. -/
def analyze_wind_data (df : List ScriptRecord) : ScriptSummary :=
  { totalProjects := df.length
    statesCount := nunique (df.map (fun r => some r.state))
    totalCapacity := seriesSum (df.map (fun r => some r.installedCapacity))
    averageCapacity := seriesMean (df.map (fun r => some r.installedCapacity))
    stateDistribution :=
      groupAggGen (fun r => some r.state) (fun r => some r.installedCapacity) df
    facilityDistribution :=
      groupAggGen (fun r => some r.facility) (fun r => some r.installedCapacity) df }

/-- The predicate of the spec's undefined-correlation condition that the
code actually tests nothing against: some unit-count or capacity value is
missing in the full columns handed to `pearsonr`. -/
def hasMissingPair (df : List Record) : Prop :=
  ((df.map fun r => r.numberOfUnits).any fun v => v.isNone) = true
    ∨ ((capacities df).any fun v => v.isNone) = true

/-- Either full series handed to `pearsonr` is constant (zero variance). -/
def zeroVarianceInput (df : List Record) : Prop :=
  isConstant ((df.map fun r => r.numberOfUnits).filterMap id) = true
    ∨ isConstant ((capacities df).filterMap id) = true

/-- Stated from the spec's words, for comparison with the code: the Pearson
statistics computed `across all records with both values present`, i.e. the
correlation the code would compute if it dropped records with a missing unit
count or capacity before calling `pearsonr`.  The code instead passes the
full columns. -/
def specPairwiseCorrelation (df : List Record) : Except Unit (Option CorrStats) :=
  let pairs := df.filterMap fun r =>
    match r.numberOfUnits, r.installedCapacity with
    | some u, some c => some (u, c)
    | _, _ => none
  pearsonr (pairs.map fun p => some p.1) (pairs.map fun p => some p.2)

/-- Shorthand for building a cleaned record with a present state and
facility in concrete examples. -/
def exRecord (name st fac : String) (lat lon cap units : Option ℚ) : Record :=
  { turbineId := name
    projectName := name
    facility := some fac
    state := some st
    latitude := lat
    longitude := lon
    installedCapacity := cap
    numberOfUnits := units }

/-- A cleaned table with a single record whose state cell was empty
(`NaN`) but whose capacity is present. -/
def dfMissingState : List Record :=
  [{ turbineId := "T1"
     projectName := "P1"
     facility := some "F"
     state := none
     latitude := none
     longitude := none
     installedCapacity := some 5
     numberOfUnits := some 1 }]

/-- A raw table with a single (fully valid) row: one record with both a
capacity and a unit count. -/
def rawOneRow : RawTable :=
  { hasCoordinatesColumn := true
    rows := [{ turbineId := "T1", projectName := "P1", facility := some "School",
               state := some "OK", coordinates := some "40.0,-95.0",
               installedCapacity := some "1.5", numberOfUnits := some 2 }] }

/-- A cleaned single-record table (one valid units/capacity pair). -/
def dfOneRecord : List Record :=
  [exRecord "P1" "OK" "School" (some 40) (some (-95)) (some (3 / 2)) (some 2)]

/-- A cleaned two-record table whose unit column is constant. -/
def dfConstUnits : List Record :=
  [exRecord "P1" "OK" "School" none none (some 1) (some 1),
   exRecord "P2" "TX" "School" none none (some 2) (some 1)]

/-- A cleaned two-record table, one record of which has missing
coordinates. -/
def dfMapExample : List Record :=
  [exRecord "P1" "OK" "School" (some 40) (some (-95)) (some 1) (some 1),
   exRecord "P2" "TX" "School" none none (some 2) (some 1)]

/-- Three cleaned records: two valid units/capacity pairs plus one record
whose capacity cell was the unparseable string `N/A`. -/
def dfWithNA : List Record :=
  [exRecord "P1" "A" "F" none none (some 1) (some 1),
   exRecord "P2" "B" "F" none none (some 2) (some 2),
   exRecord "P3" "A" "F" none none none (some 3)]

/-- The record of `dfWithNA` whose capacity is missing. -/
def recNA : Record := exRecord "P3" "A" "F" none none none (some 3)

/-- The two valid records of `dfWithNA`. -/
def dfNAvalid : List Record :=
  [exRecord "P1" "A" "F" none none (some 1) (some 1),
   exRecord "P2" "B" "F" none none (some 2) (some 2)]

/-- A table with one present and one missing capacity. -/
def dfHalfMissing : List Record :=
  [exRecord "P1" "OK" "F" none none (some 1) (some 1),
   exRecord "P2" "OK" "F" none none none (some 2)]

/-- A table whose every capacity is missing. -/
def dfAllMissing : List Record :=
  [exRecord "P1" "OK" "F" none none none (some 1)]

/-- The state group of `dfAllMissing`: capacity sum 0, mean NaN, non-missing
count 0. -/
def groupAllMissing : GroupAgg :=
  { key := "OK", sum := 0, mean := none, count := 0 }

/-- A raw table whose second row's coordinate string has no comma, while the
first row's has one. -/
def rawPadded : RawTable :=
  { hasCoordinatesColumn := true
    rows := [{ turbineId := "T1", projectName := "P1", facility := some "F",
               state := some "OK", coordinates := some "40.0,-95.0",
               installedCapacity := none, numberOfUnits := some 1 },
             { turbineId := "T2", projectName := "P2", facility := some "F",
               state := some "TX", coordinates := some "40.0",
               installedCapacity := none, numberOfUnits := some 2 }] }

/-- A raw table lacking the coordinate column. -/
def rawNoColumn : RawTable := { hasCoordinatesColumn := false, rows := [] }

/-- A raw table with a three-component coordinate string. -/
def rawThreeParts : RawTable :=
  { hasCoordinatesColumn := true
    rows := [{ turbineId := "T1", projectName := "P1", facility := some "F",
               state := some "OK", coordinates := some "1,2,3",
               installedCapacity := none, numberOfUnits := some 1 }] }

/-- A raw table with one well-formed coordinate row. -/
def rawWellFormed : RawTable :=
  { hasCoordinatesColumn := true
    rows := [{ turbineId := "T1", projectName := "P1", facility := some "F",
               state := some "OK", coordinates := some "40.0,-95.0",
               installedCapacity := none, numberOfUnits := none }] }

/-- Two cleaned records with distinct states, distinct units and distinct
capacities (so that every statistic, the correlation included, is defined). -/
def dfTwoGroups : List Record :=
  [exRecord "P1" "A" "F" none none (some 1) (some 1),
   exRecord "P2" "B" "F" none none (some 2) (some 2)]

/-- The analysis results of `dfTwoGroups`, written out. -/
def analysisTwoGroups : AnalysisResults :=
  { capacity_by_state :=
      [{ key := "A", sum := 1, mean := some 1, count := 1 },
       { key := "B", sum := 2, mean := some 2, count := 1 }]
    capacity_by_facility := [{ key := "F", sum := 3, mean := some (3 / 2), count := 2 }]
    capacity_units_correlation :=
      some { cov := 1 / 2, varX := 1 / 2, varY := 1 / 2 } }

/-! Shared lemmas about the embedded pandas primitives. -/

theorem mem_firstDedup (k : String) (xs : List String) :
    ∀ seen : List String, k ∈ firstDedup seen xs ↔ k ∈ xs ∧ k ∉ seen := by
  induction xs with
  | nil => intro seen; simp [firstDedup]
  | cons x xs ih =>
    intro seen
    by_cases hx : x ∈ seen
    · simp only [firstDedup, if_pos hx, ih, List.mem_cons]
      constructor
      · tauto
      · rintro ⟨h1 | h1, h2⟩
        · subst h1; exact absurd hx h2
        · exact ⟨h1, h2⟩
    · simp only [firstDedup, if_neg hx, List.mem_cons, ih, List.mem_cons]
      constructor
      · rintro (h | ⟨h1, h2⟩)
        · subst h; exact ⟨Or.inl rfl, hx⟩
        · exact ⟨Or.inr h1, fun hs => h2 (Or.inr hs)⟩
      · rintro ⟨h | h, h2⟩
        · exact Or.inl h
        · by_cases hkx : k = x
          · exact Or.inl hkx
          · exact Or.inr ⟨h, fun hs => by
              rcases hs with hs | hs
              · exact hkx hs
              · exact h2 hs⟩

theorem nodup_firstDedup (xs : List String) :
    ∀ seen : List String, (firstDedup seen xs).Nodup := by
  induction xs with
  | nil => intro seen; simp [firstDedup]
  | cons x xs ih =>
    intro seen
    by_cases hx : x ∈ seen
    · simpa [firstDedup, hx] using ih seen
    · simp only [firstDedup, if_neg hx]
      refine List.nodup_cons.mpr ⟨fun hmem => ?_, ih (x :: seen)⟩
      exact ((mem_firstDedup x xs (x :: seen)).mp hmem).2 (List.mem_cons_self x seen)

theorem nodup_groupKeys (xs : List (Option String)) : (groupKeys xs).Nodup :=
  (List.perm_insertionSort _ _).nodup_iff.mpr (nodup_firstDedup (xs.filterMap id) [])

theorem mem_groupKeys {k : String} {xs : List (Option String)} :
    k ∈ groupKeys xs ↔ some k ∈ xs := by
  rw [groupKeys, (List.perm_insertionSort _ _).mem_iff, mem_firstDedup]
  simp

theorem mem_valueCounts {xs : List (Option String)} {k : String} (hk : some k ∈ xs) :
    (k, countValue xs k) ∈ valueCounts xs := by
  rw [valueCounts, (List.perm_insertionSort _ _).mem_iff]
  refine List.mem_map_of_mem _ ((mem_firstDedup k (xs.filterMap id) []).mpr ⟨?_, by simp⟩)
  simpa using hk

theorem length_valueCounts (xs : List (Option String)) :
    (valueCounts xs).length = nunique xs := by
  rw [valueCounts, (List.perm_insertionSort _ _).length_eq, List.length_map, nunique]

theorem length_groupKeys (xs : List (Option String)) :
    (groupKeys xs).length = nunique xs := by
  rw [groupKeys, (List.perm_insertionSort _ _).length_eq, nunique]

theorem seriesSum_cons_none (xs : List (Option ℚ)) :
    seriesSum (none :: xs) = seriesSum xs := by
  simp [seriesSum, List.filterMap_cons]

theorem seriesSum_cons_some (v : ℚ) (xs : List (Option ℚ)) :
    seriesSum (some v :: xs) = v + seriesSum xs := by
  simp [seriesSum, List.filterMap_cons]

theorem seriesSum_eq_sum_getD (xs : List (Option ℚ)) :
    seriesSum xs = (xs.map (fun o => o.getD 0)).sum := by
  induction xs with
  | nil => rfl
  | cons x xs ih =>
    cases x with
    | none => rw [seriesSum_cons_none, ih]; simp
    | some v => rw [seriesSum_cons_some, ih]; simp

theorem sum_map_ite_eq (a : String) (c : ℚ) (S : String → ℚ) :
    ∀ keys : List String, keys.Nodup → a ∈ keys →
      (keys.map (fun k => if a = k then c + S k else S k)).sum = c + (keys.map S).sum := by
  intro keys
  induction keys with
  | nil => intro _ h; exact absurd h (List.not_mem_nil a)
  | cons k ks ih =>
    intro hnd ha
    rcases List.mem_cons.mp ha with h | h
    · subst h
      have hnotin : a ∉ ks := (List.nodup_cons.mp hnd).1
      have hmap : ks.map (fun x => if a = x then c + S x else S x) = ks.map S :=
        List.map_congr_left fun x hx => by
          have hax : a ≠ x := fun he => hnotin (he ▸ hx)
          simp [hax]
      simp only [List.map_cons, List.sum_cons, hmap, if_pos]
      ring
    · have hak : a ≠ k := fun he => (List.nodup_cons.mp hnd).1 (he ▸ h)
      simp only [List.map_cons, List.sum_cons, if_neg hak]
      rw [ih (List.nodup_cons.mp hnd).2 h]
      ring

theorem sum_groups_eq_total (f : Record → Option String) (g : Record → ℚ) :
    ∀ (df : List Record) (keys : List String), keys.Nodup →
      (∀ r ∈ df, ∀ s, f r = some s → s ∈ keys) →
      (keys.map (fun k => ((df.filter (fun r => f r = some k)).map g).sum)).sum
        = ((df.filter fun r => (f r).isSome).map g).sum := by
  intro df
  induction df with
  | nil => intro keys _ _; simp
  | cons r df ih =>
    intro keys hnd hcov
    have hrec := ih keys hnd fun x hx => hcov x (List.mem_cons_of_mem r hx)
    cases hfr : f r with
    | none =>
      have h1 : keys.map (fun k => (((r :: df).filter (fun x => f x = some k)).map g).sum)
          = keys.map (fun k => ((df.filter (fun x => f x = some k)).map g).sum) := by
        refine List.map_congr_left fun k _ => ?_
        simp [List.filter_cons, hfr]
      rw [h1, hrec]
      simp [List.filter_cons, hfr]
    | some s =>
      have hs : s ∈ keys := hcov r (List.mem_cons_self r df) s hfr
      have h1 : keys.map (fun k => (((r :: df).filter (fun x => f x = some k)).map g).sum)
          = keys.map (fun k =>
              if s = k then g r + ((df.filter (fun x => f x = some k)).map g).sum
              else ((df.filter (fun x => f x = some k)).map g).sum) := by
        refine List.map_congr_left fun k _ => ?_
        by_cases h : s = k
        · simp [List.filter_cons, hfr, h]
        · simp [List.filter_cons, hfr, h]
      rw [h1, sum_map_ite_eq _ _ _ keys hnd hs, hrec]
      simp [List.filter_cons, hfr]

theorem load_ok_eq {t : RawTable} {df : List Record}
    (h : load_and_clean_data t = .ok df) : df = t.rows.map cleanRow := by
  unfold load_and_clean_data at h
  split_ifs at h
  simp_all

theorem addMarkers_error_of_missing :
    ∀ df : List Record, (∃ r ∈ df, r.latitude.isNone = true ∨ r.longitude.isNone = true) →
      addMarkers df = .error RunError.invalidLocation := by
  intro df
  induction df with
  | nil =>
    rintro ⟨r, hr, _⟩
    exact absurd hr (List.not_mem_nil r)
  | cons r rs ih =>
    rintro ⟨x, hx, hmiss⟩
    by_cases hr : (r.latitude.isNone || r.longitude.isNone) = true
    · simp only [addMarkers, if_pos hr]
    · rcases List.mem_cons.mp hx with h | h
      · subst h
        exact absurd (by rcases hmiss with h | h <;> simp [h]) hr
      · simp only [addMarkers, if_neg hr, ih ⟨x, h, hmiss⟩]

theorem addMarkers_ok_of_present :
    ∀ df : List Record, (∀ r ∈ df, r.latitude.isSome = true ∧ r.longitude.isSome = true) →
      addMarkers df = .ok (df.map markerOf) := by
  intro df
  induction df with
  | nil => intro _; rfl
  | cons r rs ih =>
    intro hall
    have hr := hall r (List.mem_cons_self r rs)
    obtain ⟨lv, hlv⟩ := Option.isSome_iff_exists.mp hr.1
    obtain ⟨ov, hov⟩ := Option.isSome_iff_exists.mp hr.2
    rw [show addMarkers (r :: rs)
        = if r.latitude.isNone || r.longitude.isNone then .error .invalidLocation
          else match addMarkers rs with
            | .error e => .error e
            | .ok ms => .ok (markerOf r :: ms) from rfl]
    rw [if_neg (by simp [hlv, hov]), ih fun x hx => hall x (List.mem_cons_of_mem r hx)]
    rfl

theorem sorted_valueCounts (xs : List (Option String)) :
    (valueCounts xs).Sorted (fun p q : String × ℕ => q.2 ≤ p.2) := by
  haveI : IsTotal (String × ℕ) (fun p q => q.2 ≤ p.2) := ⟨fun a b => le_total b.2 a.2⟩
  haveI : IsTrans (String × ℕ) (fun p q => q.2 ≤ p.2) := ⟨fun a b c h1 h2 => le_trans h2 h1⟩
  exact List.sorted_insertionSort _ _

theorem sorted_sumSortDesc (l : List (String × ℚ)) :
    (l.insertionSort (fun p q => q.2 ≤ p.2)).Sorted (fun p q : String × ℚ => q.2 ≤ p.2) := by
  haveI : IsTotal (String × ℚ) (fun p q => q.2 ≤ p.2) := ⟨fun a b => le_total b.2 a.2⟩
  haveI : IsTrans (String × ℚ) (fun p q => q.2 ≤ p.2) := ⟨fun a b c h1 h2 => le_trans h2 h1⟩
  exact List.sorted_insertionSort _ _

/-! Claim theorems. -/

/-- C7, counterexample: a table whose single record has a missing (`NaN`)
state but a present capacity of 5 has no state group at all, so the sum of
the per-state group sums is 0 while the overall total capacity is 5 —
`groupby('State')` drops the row from every group, `sum()` does not. -/
theorem C7_counterexample_missing_state_row :
    ((capacityByState dfMissingState).map GroupAgg.sum).sum = 0
      ∧ (generate_statistical_summary dfMissingState).total_capacity = 5
      ∧ ((capacityByState dfMissingState).map GroupAgg.sum).sum
          ≠ (generate_statistical_summary dfMissingState).total_capacity := by
  have h1 : ((capacityByState dfMissingState).map GroupAgg.sum).sum = 0 := rfl
  have h2 : (generate_statistical_summary dfMissingState).total_capacity = 5 := by
    show seriesSum (capacities dfMissingState) = 5
    norm_num [capacities, dfMissingState, seriesSum, List.filterMap_cons]
  refine ⟨h1, h2, ?_⟩
  rw [h1, h2]
  norm_num

/-- C7, amended: the sum over all state groups of that group's capacity sum
equals the total capacity of the records whose state is present; records
with a missing state are dropped from every group while their capacities
still enter the overall total, so the sum of group sums equals the overall
total capacity exactly on tables in which every record has a state. -/
theorem C7_amended_group_sums_total_over_present_states (df : List Record) :
    ((capacityByState df).map GroupAgg.sum).sum
      = seriesSum (capacities (df.filter fun r => r.state.isSome))
      ∧ ((∀ r ∈ df, r.state.isSome = true) →
          ((capacityByState df).map GroupAgg.sum).sum
            = (generate_statistical_summary df).total_capacity) := by
  have hcov : ∀ r ∈ df, ∀ s, r.state = some s → s ∈ groupKeys (df.map fun x => x.state) :=
    fun r hr s hs => mem_groupKeys.mpr (hs ▸ List.mem_map_of_mem _ hr)
  have hL : (capacityByState df).map GroupAgg.sum
      = (groupKeys (df.map fun x => x.state)).map
          (fun k => ((df.filter fun r => r.state = some k).map
            fun r => r.installedCapacity.getD 0).sum) := by
    simp only [capacityByState, groupAggGen, List.map_map]
    refine List.map_congr_left fun k _ => ?_
    show seriesSum ((df.filter fun r => r.state = some k).map
      fun r => r.installedCapacity) = _
    rw [seriesSum_eq_sum_getD, List.map_map]
    rfl
  have key := sum_groups_eq_total (fun r => r.state) (fun r => r.installedCapacity.getD 0)
    df (groupKeys (df.map fun x => x.state)) (nodup_groupKeys _) hcov
  have hmain : ((capacityByState df).map GroupAgg.sum).sum
      = seriesSum (capacities (df.filter fun r => r.state.isSome)) := by
    rw [hL]
    refine key.trans ?_
    show ((df.filter fun r => r.state.isSome).map fun r => r.installedCapacity.getD 0).sum
      = seriesSum (capacities (df.filter fun r => r.state.isSome))
    rw [seriesSum_eq_sum_getD, capacities, List.map_map]
    rfl
  refine ⟨hmain, fun hall => ?_⟩
  rw [hmain, List.filter_eq_self.mpr fun r hr => by simpa using hall r hr]
  rfl

/-- Witness for C7 amended: on a table in which every record has a state,
the group sums add up to the reported total capacity. -/
theorem C7_amended_witness :
    ((capacityByState dfTwoGroups).map GroupAgg.sum).sum
      = (generate_statistical_summary dfTwoGroups).total_capacity :=
  (C7_amended_group_sums_total_over_present_states dfTwoGroups).2 (by decide)

/-- C5: for every table with at least one missing capacity value (and at
least one present one, without which the stated quotient has no defined
value), the reported mean capacity is the total capacity divided by the
number of records with a non-missing capacity, not by the record count. -/
theorem C5_mean_divides_by_nonmissing_count (df : List Record)
    (hmiss : ∃ r ∈ df, r.installedCapacity = none)
    (hpos : 0 < ((capacities df).filterMap id).length) :
    (generate_statistical_summary df).avg_capacity
      = some ((generate_statistical_summary df).total_capacity
          / ((capacities df).filterMap id).length) := by
  have hne : ((capacities df).filterMap id).length ≠ 0 := Nat.pos_iff_ne_zero.mp hpos
  show seriesMean (capacities df) = some (seriesSum (capacities df) / _)
  simp only [seriesMean, seriesSum]
  rw [if_neg hne]

/-- Witness for C5 at a concrete table: capacities `[1, NaN]` give mean
`1 / 1 = 1`, not `1 / 2`. -/
theorem C5_witness :
    (generate_statistical_summary dfHalfMissing).avg_capacity
      = some ((generate_statistical_summary dfHalfMissing).total_capacity
          / ((capacities dfHalfMissing).filterMap id).length) :=
  C5_mean_divides_by_nonmissing_count dfHalfMissing
    ⟨exRecord "P2" "OK" "F" none none none (some 2), by simp [dfHalfMissing], rfl⟩
    (by simp [dfHalfMissing, capacities, exRecord, List.filterMap_cons])

/-- C2, counterexample: in a two-record table whose second record has
missing coordinates, exactly one record has valid coordinates, yet the map
renderer does not emit that one marker and move on — `CircleMarker`'s
location validation raises on the `NaN` coordinates and the whole map
rendering aborts. -/
theorem C2_counterexample_nan_coordinate_fatal :
    (dfMapExample.filter fun r => r.latitude.isSome && r.longitude.isSome).length = 1
      ∧ create_map dfMapExample = .error RunError.invalidLocation :=
  ⟨rfl, rfl⟩

/-- C2, amended: a record with a missing coordinate is fatal to the whole
map — `create_map` aborts with folium's location `ValueError` whenever some
record's latitude or longitude is missing; only when every record has both
coordinates (and the table is non-empty, so the centre is defined) does the
renderer succeed, and then it produces exactly one marker per record. -/
theorem C2_amended_missing_coordinate_fatal (df : List Record) :
    ((∃ r ∈ df, r.latitude.isNone = true ∨ r.longitude.isNone = true) →
        create_map df = .error RunError.invalidLocation)
      ∧ (df ≠ [] → (∀ r ∈ df, r.latitude.isSome = true ∧ r.longitude.isSome = true) →
          Except.map MapViz.markers (create_map df) = .ok (df.map markerOf)) := by
  constructor
  · intro hex
    unfold create_map
    by_cases hc : ((seriesMean (df.map fun r => r.latitude)).isNone
        || (seriesMean (df.map fun r => r.longitude)).isNone) = true
    · rw [if_pos hc]
    · rw [if_neg hc, addMarkers_error_of_missing df hex]
  · intro hne hall
    obtain ⟨r0, hr0⟩ := List.exists_mem_of_ne_nil df hne
    obtain ⟨la, hla⟩ := Option.isSome_iff_exists.mp (hall r0 hr0).1
    obtain ⟨lo, hlo⟩ := Option.isSome_iff_exists.mp (hall r0 hr0).2
    have hmem1 : la ∈ (df.map fun r => r.latitude).filterMap id :=
      List.mem_filterMap.mpr ⟨some la, hla ▸ List.mem_map_of_mem _ hr0, rfl⟩
    have hmem2 : lo ∈ (df.map fun r => r.longitude).filterMap id :=
      List.mem_filterMap.mpr ⟨some lo, hlo ▸ List.mem_map_of_mem _ hr0, rfl⟩
    have hlen1 : ((df.map fun r => r.latitude).filterMap id).length ≠ 0 := by
      intro h0
      rw [List.length_eq_zero] at h0
      rw [h0] at hmem1
      exact absurd hmem1 (List.not_mem_nil la)
    have hlen2 : ((df.map fun r => r.longitude).filterMap id).length ≠ 0 := by
      intro h0
      rw [List.length_eq_zero] at h0
      rw [h0] at hmem2
      exact absurd hmem2 (List.not_mem_nil lo)
    unfold create_map
    rw [if_neg (by simp only [seriesMean]; rw [if_neg hlen1, if_neg hlen2]; simp),
      addMarkers_ok_of_present df hall]
    rfl

/-- Witness for C2 amended: the mixed table aborts; the all-valid
single-record table renders one marker for its one record. -/
theorem C2_amended_witness :
    create_map dfMapExample = .error RunError.invalidLocation
      ∧ Except.map MapViz.markers (create_map dfOneRecord)
          = .ok (dfOneRecord.map markerOf) := by
  constructor
  · exact (C2_amended_missing_coordinate_fatal dfMapExample).1
      ⟨exRecord "P2" "TX" "School" none none (some 2) (some 1),
        List.mem_cons_of_mem _ (List.mem_cons_self _ _), Or.inl rfl⟩
  · exact (C2_amended_missing_coordinate_fatal dfOneRecord).2 (by simp [dfOneRecord])
      (by decide)

/-- C6, counterexample: a table whose only record has a missing capacity
yields the missing marker itself as the overall mean capacity and as the
state group's mean — the marker does surface in the aggregate summary. -/
theorem C6_counterexample_marker_in_summary :
    (generate_statistical_summary dfAllMissing).avg_capacity = none
      ∧ (capacityByState dfAllMissing).map GroupAgg.mean = [none] := by
  constructor
  · show seriesMean (capacities dfAllMissing) = none
    simp [capacities, dfAllMissing, exRecord, seriesMean]
  · simp [capacityByState, groupAggGen, groupKeys, firstDedup, dfAllMissing, exRecord,
      List.insertionSort, List.orderedInsert, seriesMean, List.filterMap_cons]

/-- C6, amended: sums always skip missing capacity values (an all-missing
series sums to zero, never to the marker); means skip missing values too,
but the overall mean is the missing marker exactly when no capacity is
present, and a state group's mean is the marker exactly when the group's
non-missing count is zero. -/
theorem C6_amended_mean_missing_iff_no_data (df : List Record) :
    ((generate_statistical_summary df).avg_capacity = none
        ↔ (capacities df).filterMap id = [])
      ∧ ∀ g ∈ capacityByState df, (g.mean = none ↔ g.count = 0) := by
  constructor
  · show seriesMean (capacities df) = none ↔ _
    simp only [seriesMean]
    constructor
    · intro h
      by_cases hl : ((capacities df).filterMap id).length = 0
      · exact List.length_eq_zero.mp hl
      · rw [if_neg hl] at h
        exact absurd h (by simp)
    · intro h
      simp [h]
  · intro g hg
    simp only [capacityByState, groupAggGen, List.mem_map] at hg
    obtain ⟨k, hk, rfl⟩ := hg
    show seriesMean _ = none ↔ (List.filterMap id _).length = 0
    simp only [seriesMean]
    by_cases hl : ((((df.filter fun r => r.state = some k)).map
        fun r => r.installedCapacity).filterMap id).length = 0
    · simp [hl]
    · simp [hl]

/-- Witness for C6 amended at the all-missing table and its state group. -/
theorem C6_amended_witness :
    ((generate_statistical_summary dfAllMissing).avg_capacity = none
        ↔ (capacities dfAllMissing).filterMap id = [])
      ∧ (groupAllMissing.mean = none ↔ groupAllMissing.count = 0) := by
  refine ⟨(C6_amended_mean_missing_iff_no_data dfAllMissing).1,
    (C6_amended_mean_missing_iff_no_data dfAllMissing).2 groupAllMissing ?_⟩
  show _ ∈ capacityByState dfAllMissing
  simp [capacityByState, groupAggGen, groupKeys, firstDedup, dfAllMissing, exRecord,
    List.insertionSort, List.orderedInsert, groupAllMissing, seriesSum, seriesMean,
    List.filterMap_cons]

/-- C10: each of the report's three top lists is sorted in descending order
of its stated key and has exactly `min 3 (number of groups)` entries —
at most three, fewer when fewer groups exist. -/
theorem C10_top3_sorted_and_bounded (df : List Record) (a : AnalysisResults)
    (ha : perform_analysis df = .ok a) :
    ((generate_report (generate_statistical_summary df) a).top_states_by_count.Sorted
        (fun p q : String × ℕ => q.2 ≤ p.2)
      ∧ (generate_report (generate_statistical_summary df) a).top_states_by_count.length
          = min 3 (nunique (df.map fun r => r.state)))
    ∧ ((generate_report (generate_statistical_summary df) a).top_facilities_by_count.Sorted
        (fun p q : String × ℕ => q.2 ≤ p.2)
      ∧ (generate_report (generate_statistical_summary df) a).top_facilities_by_count.length
          = min 3 (nunique (df.map fun r => r.facility)))
    ∧ ((generate_report (generate_statistical_summary df) a).top_states_by_capacity.Sorted
        (fun p q : String × ℚ => q.2 ≤ p.2)
      ∧ (generate_report (generate_statistical_summary df) a).top_states_by_capacity.length
          = min 3 (nunique (df.map fun r => r.state))) := by
  have hstate : a.capacity_by_state = capacityByState df := by
    unfold perform_analysis at ha
    cases hp : pearsonr (df.map fun r => r.numberOfUnits) (capacities df) with
    | error e => rw [hp] at ha; exact absurd ha (by simp)
    | ok c =>
      rw [hp] at ha
      cases ha
      rfl
  refine ⟨⟨?_, ?_⟩, ⟨?_, ?_⟩, ⟨?_, ?_⟩⟩
  · show ((valueCounts (df.map fun r => r.state)).take 3).Sorted _
    exact (sorted_valueCounts _).sublist (List.take_sublist 3 _)
  · show ((valueCounts (df.map fun r => r.state)).take 3).length = _
    rw [List.length_take, length_valueCounts]
  · show ((valueCounts (df.map fun r => r.facility)).take 3).Sorted _
    exact (sorted_valueCounts _).sublist (List.take_sublist 3 _)
  · show ((valueCounts (df.map fun r => r.facility)).take 3).length = _
    rw [List.length_take, length_valueCounts]
  · show (((a.capacity_by_state.map fun g => (g.key, g.sum)).insertionSort
        (fun p q => q.2 ≤ p.2)).take 3).Sorted _
    exact (sorted_sumSortDesc _).sublist (List.take_sublist 3 _)
  · show (((a.capacity_by_state.map fun g => (g.key, g.sum)).insertionSort
        (fun p q => q.2 ≤ p.2)).take 3).length = _
    rw [List.length_take, (List.perm_insertionSort _ _).length_eq, List.length_map, hstate]
    rw [show (capacityByState df).length = nunique (df.map fun r => r.state) from by
      simp [capacityByState, groupAggGen, length_groupKeys]]

/-- Witness for C10 at a concrete two-group table with a defined
correlation. -/
theorem C10_witness :
    ((generate_report (generate_statistical_summary dfTwoGroups)
        analysisTwoGroups).top_states_by_count.Sorted
        (fun p q : String × ℕ => q.2 ≤ p.2)
      ∧ (generate_report (generate_statistical_summary dfTwoGroups)
          analysisTwoGroups).top_states_by_count.length
          = min 3 (nunique (dfTwoGroups.map fun r => r.state)))
    ∧ ((generate_report (generate_statistical_summary dfTwoGroups)
        analysisTwoGroups).top_facilities_by_count.Sorted
        (fun p q : String × ℕ => q.2 ≤ p.2)
      ∧ (generate_report (generate_statistical_summary dfTwoGroups)
          analysisTwoGroups).top_facilities_by_count.length
          = min 3 (nunique (dfTwoGroups.map fun r => r.facility)))
    ∧ ((generate_report (generate_statistical_summary dfTwoGroups)
        analysisTwoGroups).top_states_by_capacity.Sorted
        (fun p q : String × ℚ => q.2 ≤ p.2)
      ∧ (generate_report (generate_statistical_summary dfTwoGroups)
          analysisTwoGroups).top_states_by_capacity.length
          = min 3 (nunique (dfTwoGroups.map fun r => r.state))) := by
  refine C10_top3_sorted_and_bounded dfTwoGroups analysisTwoGroups ?_
  show perform_analysis dfTwoGroups = .ok analysisTwoGroups
  have hp : pearsonr (dfTwoGroups.map fun r => r.numberOfUnits) (capacities dfTwoGroups)
      = .ok (some { cov := 1 / 2, varX := 1 / 2, varY := 1 / 2 }) := by
    norm_num [pearsonr, dfTwoGroups, exRecord, capacities, List.filterMap_cons, isConstant,
      listMean, devSum, List.headI]
  unfold perform_analysis
  rw [show dfTwoGroups.map (fun r => r.numberOfUnits) = [some 1, some 2] from by
        simp [dfTwoGroups, exRecord]] at hp ⊢
  rw [show capacities dfTwoGroups = [some 1, some 2] from by
        simp [capacities, dfTwoGroups, exRecord]] at hp ⊢
  rw [hp]
  have hAB : strLe "A" "B" = true := by decide
  have hBA : ¬ ("B" : String) = "A" := by decide
  have hAB2 : ¬ ("A" : String) = "B" := by decide
  norm_num [analysisTwoGroups, capacityByState, capacityByFacility, groupAggGen, groupKeys,
    firstDedup, dfTwoGroups, exRecord, List.insertionSort, List.orderedInsert, seriesSum,
    seriesMean, List.filterMap_cons, List.filter_cons, List.filter_nil, hAB, hBA, hAB2]
  exact ⟨⟨fun h => Option.noConfusion h, fun h => Option.noConfusion h⟩,
    fun h _ => Option.noConfusion h⟩

/-- C1, counterexample: a table with exactly one record (hence fewer than
two records with both values present) makes `pearsonr` raise, the run
aborts, and no report is generated at all — so no report states the
undefined correlation. -/
theorem C1_counterexample_no_report :
    rawOneRow.rows.length < 2 ∧ main rawOneRow = .error RunError.corrLength := by
  constructor
  · decide
  · rfl

/-- C1, amended: with fewer than two records the correlation call raises and
the analysis aborts (so no report exists); with at least two records, a
missing unit-count or capacity value or a constant series makes the stored
correlation the missing marker `NaN` (which `generate_report` formats as the
string `nan`), never a silently-coerced zero — but also never an explicit
`undefined` statement. -/
theorem C1_amended_correlation_behavior (df : List Record) :
    (df.length < 2 → perform_analysis df = .error ())
      ∧ (2 ≤ df.length → hasMissingPair df ∨ zeroVarianceInput df →
          Except.map AnalysisResults.capacity_units_correlation (perform_analysis df)
            = .ok none) := by
  constructor
  · intro h
    have hp : pearsonr (df.map fun r => r.numberOfUnits) (capacities df) = .error () := by
      unfold pearsonr
      rw [if_pos (by simpa using h)]
    unfold perform_analysis
    rw [hp]
  · intro h2 hdeg
    have hp : pearsonr (df.map fun r => r.numberOfUnits) (capacities df) = .ok none := by
      unfold pearsonr
      rw [if_neg (by simp only [List.length_map]; omega)]
      by_cases hm : (((df.map fun r => r.numberOfUnits).any fun v => v.isNone)
          || ((capacities df).any fun v => v.isNone)) = true
      · rw [if_pos hm]
      · rw [if_neg hm]
        have hzv : zeroVarianceInput df := by
          cases hdeg with
          | inl hmp =>
            exfalso
            apply hm
            cases hmp with
            | inl h => simp [h]
            | inr h => simp [h]
          | inr h => exact h
        cases hzv with
        | inl h => rw [if_pos (by simp only [Bool.or_eq_true]; left; simpa using h)]
        | inr h => rw [if_pos (by simp only [Bool.or_eq_true]; right; simpa using h)]
    unfold perform_analysis
    rw [hp]
    rfl

/-- Witness for C1 amended: the one-record table aborts the analysis; the
two-record table with constant units yields the `NaN` correlation. -/
theorem C1_amended_witness :
    perform_analysis dfOneRecord = .error ()
      ∧ Except.map AnalysisResults.capacity_units_correlation (perform_analysis dfConstUnits)
          = .ok none := by
  constructor
  · exact (C1_amended_correlation_behavior dfOneRecord).1 (by decide)
  · refine (C1_amended_correlation_behavior dfConstUnits).2 (by decide) (Or.inr (Or.inl ?_))
    decide

/-- C3, counterexample: the capacity cell `N/A` is coerced to the missing
marker, and in a three-record table with two valid units/capacity pairs the
code's correlation is `NaN` — the bad record is not excluded from the
correlation (excluding it, as the claim states, would give the defined
statistics computed over the two valid pairs). -/
theorem C3_counterexample_correlation_poisoned :
    toNumericCoerce (some "N/A") = none
      ∧ Except.map AnalysisResults.capacity_units_correlation (perform_analysis dfWithNA)
          = .ok none
      ∧ specPairwiseCorrelation dfWithNA
          = .ok (some { cov := 1 / 2, varX := 1 / 2, varY := 1 / 2 }) := by
  refine ⟨rfl, rfl, ?_⟩
  norm_num [specPairwiseCorrelation, dfWithNA, exRecord, pearsonr, isConstant, listMean,
    devSum, List.filterMap_cons, List.headI]

/-- C3, amended: a record with an unparseable capacity is excluded from the
capacity sum and mean (removing it changes neither) while still being
counted in the total record count and the per-state count distribution; but
it is not excluded from the correlation — its missing capacity makes the
whole correlation the missing marker `NaN`. -/
theorem C3_amended_na_excluded_except_correlation (l1 l2 : List Record) (r : Record)
    (hr : r.installedCapacity = none) (s : String) (hst : r.state = some s) :
    (generate_statistical_summary (l1 ++ r :: l2)).total_projects = (l1 ++ l2).length + 1
      ∧ (generate_statistical_summary (l1 ++ r :: l2)).total_capacity
          = (generate_statistical_summary (l1 ++ l2)).total_capacity
      ∧ (generate_statistical_summary (l1 ++ r :: l2)).avg_capacity
          = (generate_statistical_summary (l1 ++ l2)).avg_capacity
      ∧ countValue ((l1 ++ r :: l2).map fun x => x.state) s
          = countValue ((l1 ++ l2).map fun x => x.state) s + 1
      ∧ (s, countValue ((l1 ++ r :: l2).map fun x => x.state) s)
          ∈ (generate_statistical_summary (l1 ++ r :: l2)).state_counts
      ∧ (2 ≤ (l1 ++ r :: l2).length →
          Except.map AnalysisResults.capacity_units_correlation
            (perform_analysis (l1 ++ r :: l2)) = .ok none) := by
  have hcap : (capacities (l1 ++ r :: l2)).filterMap id
      = (capacities (l1 ++ l2)).filterMap id := by
    simp [capacities, List.map_append, List.filterMap_append, List.filterMap_cons, hr]
  refine ⟨?_, ?_, ?_, ?_, ?_, ?_⟩
  · show (l1 ++ r :: l2).length = (l1 ++ l2).length + 1
    simp only [List.length_append, List.length_cons]
    omega
  · show seriesSum (capacities (l1 ++ r :: l2)) = seriesSum (capacities (l1 ++ l2))
    rw [seriesSum, seriesSum, hcap]
  · show seriesMean (capacities (l1 ++ r :: l2)) = seriesMean (capacities (l1 ++ l2))
    rw [seriesMean, seriesMean, hcap]
  · simp only [countValue, List.map_append, List.map_cons, List.filter_append,
      List.filter_cons, hst, decide_eq_true_eq, eq_self_iff_true, Option.some.injEq,
      if_true, List.length_append, List.length_cons]
    omega
  · exact mem_valueCounts (hst ▸ List.mem_map_of_mem _
      (List.mem_append.mpr (Or.inr (List.mem_cons_self r l2))))
  · intro hlen
    have hany : ((capacities (l1 ++ r :: l2)).any fun v => v.isNone) = true :=
      List.any_eq_true.mpr ⟨none,
        hr ▸ List.mem_map_of_mem _ (List.mem_append.mpr (Or.inr (List.mem_cons_self r l2))),
        rfl⟩
    have hp : pearsonr ((l1 ++ r :: l2).map fun x => x.numberOfUnits)
        (capacities (l1 ++ r :: l2)) = .ok none := by
      unfold pearsonr
      rw [if_neg (by simp only [List.length_map]; omega), if_pos (by simp [hany])]
    unfold perform_analysis
    rw [hp]
    rfl

/-- Witness for C3 amended at the concrete `N/A` table. -/
theorem C3_amended_witness :
    (generate_statistical_summary dfWithNA).total_projects = dfNAvalid.length + 1
      ∧ (generate_statistical_summary dfWithNA).total_capacity
          = (generate_statistical_summary dfNAvalid).total_capacity
      ∧ (generate_statistical_summary dfWithNA).avg_capacity
          = (generate_statistical_summary dfNAvalid).avg_capacity
      ∧ countValue (dfWithNA.map fun x => x.state) "A"
          = countValue (dfNAvalid.map fun x => x.state) "A" + 1
      ∧ ("A", countValue (dfWithNA.map fun x => x.state) "A")
          ∈ (generate_statistical_summary dfWithNA).state_counts
      ∧ Except.map AnalysisResults.capacity_units_correlation (perform_analysis dfWithNA)
          = .ok none := by
  have h := C3_amended_na_excluded_except_correlation dfNAvalid [] recNA rfl "A" rfl
  exact ⟨h.1, h.2.1, h.2.2.1, h.2.2.2.1, h.2.2.2.2.1, h.2.2.2.2.2 (by decide)⟩

/-- Helper: the exact total capacity of the literal `script.py` table. -/
theorem scriptData_totalCapacity :
    (analyze_wind_data scriptData).totalCapacity = 9194434 / 1000000 := by
  show seriesSum (scriptData.map fun r => some r.installedCapacity) = _
  norm_num [scriptData, seriesSum, List.filterMap_cons]

/-- C4, counterexample: the literal table's total capacity is exactly
9.194434, which is not within half a display unit (0.005) of the claimed
9.22 — the report prints `9.19 MW`. -/
theorem C4_counterexample_total_not_922 :
    (analyze_wind_data scriptData).totalCapacity = 9194434 / 1000000
      ∧ ¬ |(analyze_wind_data scriptData).totalCapacity - 922 / 100| < 1 / 200 := by
  refine ⟨scriptData_totalCapacity, ?_⟩
  rw [scriptData_totalCapacity, abs_of_nonpos (by norm_num)]
  norm_num

/-- C4, amended: for the literal eight-record table the summary reports
total count 8, distinct states 5, total capacity ≈ 9.19 (not 9.22) and
average capacity ≈ 1.15, where ≈ means within half of the report's 0.01
display unit. -/
theorem C4_amended_script_totals :
    (analyze_wind_data scriptData).totalProjects = 8
      ∧ (analyze_wind_data scriptData).statesCount = 5
      ∧ |(analyze_wind_data scriptData).totalCapacity - 919 / 100| < 1 / 200
      ∧ (analyze_wind_data scriptData).averageCapacity = some (9194434 / 8000000)
      ∧ |(9194434 : ℚ) / 8000000 - 115 / 100| < 1 / 200 := by
  refine ⟨rfl, by decide, ?_, ?_, ?_⟩
  · rw [scriptData_totalCapacity, abs_of_nonneg (by norm_num)]
    norm_num
  · show seriesMean (scriptData.map fun r => some r.installedCapacity) = _
    norm_num [scriptData, seriesMean, List.filterMap_cons]
  · rw [abs_of_nonpos (by norm_num)]
    norm_num

/-- C8, counterexample: in a table whose second row's coordinate string has
a single component (it cannot be split into exactly two), cleaning does not
abort: the run succeeds and the malformed row is padded with a missing
longitude. -/
theorem C8_counterexample_padded_row_no_abort :
    (pySplit "40.0" ',').length = 1
      ∧ (load_and_clean_data rawPadded).isOk = true
      ∧ Except.map (fun df => df.map fun r => r.longitude.isNone)
          (load_and_clean_data rawPadded) = .ok [false, true] :=
  ⟨rfl, rfl, rfl⟩

/-- C8, amended: cleaning aborts when the coordinate column is absent, and
when the expanded frame's column count (the maximum component count over the
rows) differs from two; a row with fewer components than two in a table
whose maximum is two is padded with the missing marker instead of aborting,
and on success the output is exactly the row-wise cleaning of the input. -/
theorem C8_amended_abort_conditions (t : RawTable) :
    (t.hasCoordinatesColumn = false → load_and_clean_data t = .error RunError.missingColumn)
      ∧ (t.hasCoordinatesColumn = true → (t.rows.all rowParseOk) = true →
          maxSplitLen t ≠ 2 → load_and_clean_data t = .error RunError.shapeMismatch)
      ∧ (∀ df, load_and_clean_data t = .ok df → df = t.rows.map cleanRow) := by
  refine ⟨?_, ?_, fun df h => load_ok_eq h⟩
  · intro h
    unfold load_and_clean_data
    rw [if_pos h]
  · intro h1 h2 h3
    unfold load_and_clean_data
    rw [if_neg (by simp [h1]), if_neg (by simp [h2]), if_pos h3]

/-- Witness for C8 amended: missing column aborts, a three-component row
aborts, a well-formed table cleans row-wise. -/
theorem C8_amended_witness :
    load_and_clean_data rawNoColumn = .error RunError.missingColumn
      ∧ load_and_clean_data rawThreeParts = .error RunError.shapeMismatch
      ∧ (load_and_clean_data rawWellFormed = .ok (rawWellFormed.rows.map cleanRow)
          ∧ rawWellFormed.rows.map cleanRow = rawWellFormed.rows.map cleanRow) :=
  ⟨(C8_amended_abort_conditions rawNoColumn).1 rfl,
    (C8_amended_abort_conditions rawThreeParts).2.1 rfl (by decide) (by decide),
    rfl, (C8_amended_abort_conditions rawWellFormed).2.2 _ rfl⟩

/-- C9: in any table that cleans successfully, a record whose coordinate
field splits on the comma into exactly two float-parseable components gets
latitude and longitude equal to those two components. -/
theorem C9_wellformed_coordinates_split (t : RawTable) (out : List Record)
    (h : load_and_clean_data t = .ok out) (i : ℕ) (r : RawRecord)
    (hi : t.rows.get? i = some r) (s a b : String) (hc : r.coordinates = some s)
    (hs : pySplit s ',' = [a, b]) (la lb : ℚ)
    (hla : pyFloat a = some (some la)) (hlb : pyFloat b = some (some lb)) :
    (out.get? i).map Record.latitude = some (some la)
      ∧ (out.get? i).map Record.longitude = some (some lb) := by
  have hout : out = t.rows.map cleanRow := load_ok_eq h
  subst hout
  rw [List.get?_map, hi]
  constructor
  · show some (cleanRow r).latitude = some (some la)
    simp [cleanRow, coordEntry, splitParts, hc, hs, hla]
  · show some (cleanRow r).longitude = some (some lb)
    simp [cleanRow, coordEntry, splitParts, hc, hs, hlb]

/-- Witness for C9: the single string `40.0,-95.0` splits to latitude 40.0
and longitude -95.0 exactly. -/
theorem C9_witness :
    ((rawWellFormed.rows.map cleanRow).get? 0).map Record.latitude = some (some 40)
      ∧ ((rawWellFormed.rows.map cleanRow).get? 0).map Record.longitude
          = some (some (-95)) := by
  have h40 : pyFloat "40.0" = some (some ((1 : ℚ) * ((40 : ℚ) + (0 : ℚ) / 10 ^ 1))) := rfl
  have h40v : ((1 : ℚ) * ((40 : ℚ) + (0 : ℚ) / 10 ^ 1)) = 40 := by norm_num
  have h95 : pyFloat "-95.0" = some (some ((-1 : ℚ) * ((95 : ℚ) + (0 : ℚ) / 10 ^ 1))) := rfl
  have h95v : ((-1 : ℚ) * ((95 : ℚ) + (0 : ℚ) / 10 ^ 1)) = -95 := by norm_num
  refine C9_wellformed_coordinates_split rawWellFormed _ rfl 0
    { turbineId := "T1", projectName := "P1", facility := some "F", state := some "OK",
      coordinates := some "40.0,-95.0", installedCapacity := none, numberOfUnits := none }
    rfl "40.0,-95.0" "40.0" "-95.0" rfl (by decide) 40 (-95) ?_ ?_
  · rw [h40, h40v]
  · rw [h95, h95v]

end ProjectReport
